import Mathlib

/-!
Shallow embedding of the authorization / step-up-authentication core of the
`proyecto_backend` repository (Flask document-management service), together
with proofs settling the frozen claims about its specification.

Naming follows the Python source: `src/models/usuario.py`,
`src/models/otp.py`, `src/utils/decoradores.py`, `src/routes/auth.py`,
`src/routes/documentos.py`.  Spec vocabulary maps to source vocabulary as
standard = `usuario`, public = `publico`, restricted = `confidencial`,
secret = `secreto`; view = `ver`, edit = `editar`, delete = `eliminar`,
download = `descargar`.
-/

namespace ProyectoBackend

/-- User roles (`Usuario.rol`, strings 'usuario' | 'supervisor' | 'admin'). -/
inductive Rol where
  | usuario
  | supervisor
  | admin
deriving DecidableEq, Repr

/-- Document security levels (`Documento.nivel_seguridad`,
strings 'publico' | 'confidencial' | 'secreto'). -/
inductive NivelSeguridad where
  | publico
  | confidencial
  | secreto
deriving DecidableEq, Repr

/-- Document lifecycle states (`Documento.estado`,
strings 'activo' | 'archivado' | 'eliminado'). -/
inductive EstadoDocumento where
  | activo
  | archivado
  | eliminado
deriving DecidableEq, Repr

/-- Actions on documents, as dispatched by the decorators
(`'ver' | 'editar' | 'eliminar' | 'descargar' | 'crear'`). -/
inductive Accion where
  | ver
  | editar
  | eliminar
  | descargar
  | crear
deriving DecidableEq, Repr

/-- The fields of the `Usuario` model relevant to authentication, lockout
and OTP (src/models/usuario.py lines 17-34).  Timestamps are abstract
integers (Unix seconds). -/
structure Usuario where
  id : Nat
  rol : Rol
  activo : Bool
  intentosLoginFallidos : Nat
  claveOtpBase32 : Option String
  otpHabilitado : Bool
  fechaUltimoOtp : Option Int
deriving DecidableEq, Repr

/-- The fields of the `Documento` model relevant to authorization
(src/models/documento.py lines 24, 55). -/
structure Documento where
  propietarioId : Nat
  nivelSeguridad : NivelSeguridad
  estado : EstadoDocumento
deriving DecidableEq, Repr

/-- `Usuario.es_admin` (usuario.py line 111). -/
def es_admin (u : Usuario) : Bool :=
  u.rol == Rol.admin

/-- `Usuario.es_supervisor` (usuario.py line 116): true for supervisor or admin. -/
def es_supervisor (u : Usuario) : Bool :=
  u.rol == Rol.supervisor || u.rol == Rol.admin

/-- `Usuario.puede_acceder_documento` (usuario.py lines 121-148):
admin, owner, public document, or supervisor on a confidential document. -/
def puede_acceder_documento (u : Usuario) (d : Documento) : Bool :=
  if es_admin u then true
  else if d.propietarioId == u.id then true
  else if d.nivelSeguridad == NivelSeguridad.publico then true
  else if es_supervisor u && d.nivelSeguridad == NivelSeguridad.confidencial then true
  else false

/-- `Usuario.puede_modificar_documento` (usuario.py lines 151-173):
admin, owner, or supervisor on a non-secret document. -/
def puede_modificar_documento (u : Usuario) (d : Documento) : Bool :=
  if es_admin u then true
  else if d.propietarioId == u.id then true
  else if es_supervisor u && d.nivelSeguridad != NivelSeguridad.secreto then true
  else false

/-- `Usuario.puede_eliminar_documento` (usuario.py lines 176-187):
only admin and owner may delete. -/
def puede_eliminar_documento (u : Usuario) (d : Documento) : Bool :=
  es_admin u || d.propietarioId == u.id

/-- `GestorOTP.requiere_otp_para_accion` (otp.py lines 110-142): the OTP
policy matrix.  The Python nested-dict lookup defaults to `False` for any
pair not listed ('editar', 'crear'). -/
def requiere_otp_para_accion (accion : Accion) (nivel : NivelSeguridad)
    (rol : Rol) : Bool :=
  match nivel, accion with
  | NivelSeguridad.secreto, Accion.ver => true
  | NivelSeguridad.secreto, Accion.eliminar => true
  | NivelSeguridad.secreto, Accion.descargar => true
  | NivelSeguridad.confidencial, Accion.ver => false
  | NivelSeguridad.confidencial, Accion.eliminar => true
  | NivelSeguridad.confidencial, Accion.descargar => rol == Rol.usuario
  | NivelSeguridad.publico, Accion.ver => false
  | NivelSeguridad.publico, Accion.eliminar => rol != Rol.admin
  | NivelSeguridad.publico, Accion.descargar => false
  | _, _ => false

/-- Privilege rank of a role: usuario < supervisor < admin. -/
def rolRango : Rol → Nat
  | Rol.usuario => 0
  | Rol.supervisor => 1
  | Rol.admin => 2

/-! ## OTP code verification (src/models/otp.py) -/

/-- Modelled from the spec: the TOTP code derivation is performed by the
external `pyotp` library, which is not part of the repository.  Following
the spec's time-window algorithm, a code generator `gen : String → Int →
String` maps a base32 secret and a 30-second time-step index to the 6-digit
code for that step; `pyotp.TOTP(clave).verify(codigo, valid_window=1)`
accepts exactly when the submitted code equals the code of the current
step or of the immediately preceding or following step. -/
def totp_verify (genPaso : Int → String) (codigo : String) (paso : Int) : Bool :=
  genPaso (paso - 1) == codigo || genPaso paso == codigo
    || genPaso (paso + 1) == codigo

/-- `GestorOTP.validar_otp_codigo` (otp.py lines 62-106): builds a TOTP
verifier for the stored base32 secret and returns the dict's `es_valido`
field, i.e. the result of `verify(codigo, valid_window=1)`.  (The loop over
`range(-2, 3)` in the source computes a local `match` variable that is
never used and has no effect on the result.) -/
def validar_otp_codigo (gen : String → Int → String) (codigo : String)
    (claveBase32 : String) (paso : Int) : Bool :=
  totp_verify (gen claveBase32) codigo paso

/-- `Usuario.validar_otp` (usuario.py lines 234-256): fails closed when OTP
is not enabled or no secret is stored; otherwise verifies the code and
updates `fecha_ultimo_otp` on success.  Returns the boolean result together
with the (possibly updated) user record. -/
def validar_otp (gen : String → Int → String) (u : Usuario) (codigo : String)
    (ahora : Int) : Bool × Usuario :=
  if !u.otpHabilitado || u.claveOtpBase32.isNone then (false, u)
  else
    match u.claveOtpBase32 with
    | none => (false, u)
    | some clave =>
      if validar_otp_codigo gen codigo clave ahora then
        (true, { u with fechaUltimoOtp := some ahora })
      else (false, u)

/-- `Usuario.validar_otp_con_debug` (usuario.py lines 259-284): like
`validar_otp` but only requires a stored secret (it does not check
`otp_habilitado`); updates `fecha_ultimo_otp` on success. -/
def validar_otp_con_debug (gen : String → Int → String) (u : Usuario)
    (codigo : String) (ahora : Int) : Bool × Usuario :=
  match u.claveOtpBase32 with
  | none => (false, u)
  | some clave =>
    if validar_otp_codigo gen codigo clave ahora then
      (true, { u with fechaUltimoOtp := some ahora })
    else (false, u)

/-- `Usuario.configurar_otp` (usuario.py lines 194-211): stores a freshly
generated base32 secret and keeps OTP disabled (pending activation).  The
secret `s` stands for `pyotp.random_base32()`, generated by the external
library. -/
def configurar_otp (u : Usuario) (s : String) : Usuario :=
  { u with claveOtpBase32 := some s, otpHabilitado := false }

/-- `Usuario.activar_otp_con_validacion` (usuario.py lines 214-233):
requires a stored secret, then calls `validar_otp`; on success enables OTP
and stamps `fecha_ultimo_otp`. -/
def activar_otp_con_validacion (gen : String → Int → String) (u : Usuario)
    (codigo : String) (ahora : Int) : Bool × Usuario :=
  if u.claveOtpBase32.isNone then (false, u)
  else
    match validar_otp gen u codigo ahora with
    | (true, u1) =>
      (true, { u1 with otpHabilitado := true, fechaUltimoOtp := some ahora })
    | (false, u1) => (false, u1)

/-- Modelled from the spec: Python's built-in `str.isdigit()` is a language
primitive, not repository code, and it accepts every Unicode digit
character — the ASCII digits but also, e.g., the superscript two `²`
(U+00B2) — so the per-character test is a parameter `esDigito : Char →
Bool` standing for that Unicode table; `es_digitos esDigito s` is
`s.isdigit()`: non-empty and every character a digit. -/
def es_digitos (esDigito : Char → Bool) (s : String) : Bool :=
  !s.data.isEmpty && s.data.all esDigito

/-- A concrete per-character digit test agreeing with Python's
`str.isdigit()` on the characters exercised in the witnesses and
counterexamples below: the ASCII digits together with the superscript two
`²` (U+00B2), which Python classifies as a digit although it is not an
ASCII digit. -/
def esDigitoPy (c : Char) : Bool :=
  c.isDigit || c.val == 0xB2

/-- Outcomes of the validation-step branch of `configurar_otp_inicial`
(auth.py lines 409-442). -/
inductive ResultadoActivacion where
  | activado
  | sinConfiguracionPendiente
  | formatoInvalido
  | codigoIncorrecto
deriving DecidableEq, Repr

/-- The activation step of the route `POST /api/auth/otp/configurar-inicial`
(`configurar_otp_inicial`, auth.py lines 409-442), reached when the request
carries `codigo_validacion`: requires a pending secret, checks the 6-digit
format, validates via `validar_otp_con_debug`, and on success sets
`otp_habilitado = True` and `fecha_ultimo_otp = now`. -/
def configurar_otp_inicial_validar (esDigito : Char → Bool)
    (gen : String → Int → String) (u : Usuario) (codigo : String)
    (ahora : Int) : ResultadoActivacion × Usuario :=
  if u.claveOtpBase32.isNone then
    (ResultadoActivacion.sinConfiguracionPendiente, u)
  else if !(es_digitos esDigito codigo) || codigo.length != 6 then
    (ResultadoActivacion.formatoInvalido, u)
  else
    match validar_otp_con_debug gen u codigo ahora with
    | (true, u1) =>
      (ResultadoActivacion.activado,
        { u1 with otpHabilitado := true, fechaUltimoOtp := some ahora })
    | (false, u1) => (ResultadoActivacion.codigoIncorrecto, u1)

/-- The route `POST /api/auth/otp/resetear` (`resetear_configuracion_otp`,
auth.py lines 469-474): disables OTP, clears the secret and the last-OTP
timestamp. -/
def resetear_configuracion_otp (u : Usuario) : Usuario :=
  { u with otpHabilitado := false, claveOtpBase32 := none,
           fechaUltimoOtp := none }

/-! ## Account lockout and login (src/routes/auth.py, src/models/usuario.py) -/

/-- `Usuario.registrar_intento_fallido` (usuario.py lines 305-308). -/
def registrar_intento_fallido (u : Usuario) : Usuario :=
  { u with intentosLoginFallidos := u.intentosLoginFallidos + 1 }

/-- `Usuario.esta_bloqueado` (usuario.py lines 311-313). -/
def esta_bloqueado (u : Usuario) : Bool :=
  5 ≤ u.intentosLoginFallidos

/-- Outcomes of the login route. -/
inductive ResultadoLogin where
  | exitoso
  | credencialesInvalidas
  | cuentaDesactivada
  | cuentaBloqueada
deriving DecidableEq, Repr

/-- The route `POST /api/auth/login` (`login`, auth.py lines 48-100) for a
user found by email: rejects inactive accounts, then locked accounts
(`esta_bloqueado`, before the password is checked), then verifies the
password — `passwordOk` stands for the result of the external bcrypt check
`verificar_password` — incrementing the failure counter on mismatch and
resetting it to 0 on success (`generar_tokens_jwt`, usuario.py line 95).
The third component records whether `verificar_password` was invoked. -/
def login (u : Usuario) (passwordOk : Bool) :
    ResultadoLogin × Usuario × Bool :=
  if !u.activo then (ResultadoLogin.cuentaDesactivada, u, false)
  else if esta_bloqueado u then (ResultadoLogin.cuentaBloqueada, u, false)
  else if !passwordOk then
    (ResultadoLogin.credencialesInvalidas, registrar_intento_fallido u, true)
  else
    (ResultadoLogin.exitoso, { u with intentosLoginFallidos := 0 }, true)

/-! ## Enforcement pipelines (src/utils/decoradores.py, src/routes/documentos.py) -/

/-- Outcomes of the document-operation enforcement paths, tagged by the
HTTP status and error code the source returns. -/
inductive Resultado where
  | proceed
  | usuarioInvalido
  | docNoEncontrado
  | docNoDisponible
  | permisosInsuficientes
  | otpNoConfigurado
  | otpCodigoRequerido
  | otpFormatoInvalido
  | otpInvalido
deriving DecidableEq, Repr

/-- `Documento.puede_ser_accedido_por` (documento.py lines 199-209). -/
def puede_ser_accedido_por (d : Documento) (u : Usuario) : Bool :=
  puede_acceder_documento u d

/-- `Documento.puede_ser_modificado_por` (documento.py lines 212-222). -/
def puede_ser_modificado_por (d : Documento) (u : Usuario) : Bool :=
  puede_modificar_documento u d

/-- `Documento.puede_ser_eliminado_por` (documento.py lines 225-235). -/
def puede_ser_eliminado_por (d : Documento) (u : Usuario) : Bool :=
  puede_eliminar_documento u d

/-- The decorator `validar_acceso_documento` (decoradores.py lines
118-187), after the authenticated user and the document have been loaded:
rejects inactive users (within `requiere_autenticacion`), documents whose
state is not 'activo' (410), and users lacking the per-action permission
(403); otherwise lets the wrapped handler run. -/
def validar_acceso_documento (accion : Accion) (u : Usuario) (d : Documento) :
    Resultado :=
  if !u.activo then Resultado.usuarioInvalido
  else if d.estado != EstadoDocumento.activo then Resultado.docNoDisponible
  else
    let puedeRealizarAccion :=
      match accion with
      | Accion.ver => puede_ser_accedido_por d u
      | Accion.editar => puede_ser_modificado_por d u
      | Accion.eliminar => puede_ser_eliminado_por d u
      | Accion.descargar => puede_ser_accedido_por d u
      | _ => false
    if !puedeRealizarAccion then Resultado.permisosInsuficientes
    else Resultado.proceed

/-- The decorator `requiere_otp_para_documento` (decoradores.py lines
190-319), after the user and document have been loaded and the action has
been resolved from the HTTP method/route: if the policy matrix does not
require OTP the handler runs; otherwise an unconfigured user gets a 428
'OTP no configurado' response, a missing `X-OTP-Code` header gets a 428
code challenge, a code failing the `isdigit()`-and-length-6 test gets a
400 format error, and otherwise `Usuario.validar_otp` decides between 401
'Código OTP inválido' and the handler. -/
def requiere_otp_para_documento (esDigito : Char → Bool)
    (gen : String → Int → String) (u : Usuario) (d : Documento)
    (accion : Accion) (codigoOtp : Option String) (ahora : Int) :
    Resultado × Usuario :=
  if !u.activo then (Resultado.usuarioInvalido, u)
  else if d.estado != EstadoDocumento.activo then (Resultado.docNoEncontrado, u)
  else if !(requiere_otp_para_accion accion d.nivelSeguridad u.rol) then
    (Resultado.proceed, u)
  else if !u.otpHabilitado then (Resultado.otpNoConfigurado, u)
  else
    match codigoOtp with
    | none => (Resultado.otpCodigoRequerido, u)
    | some codigo =>
      if !(es_digitos esDigito codigo) || codigo.length != 6 then
        (Resultado.otpFormatoInvalido, u)
      else
        match validar_otp gen u codigo ahora with
        | (true, u1) => (Resultado.proceed, u1)
        | (false, u1) => (Resultado.otpInvalido, u1)

/-- The route `GET /api/documentos/<id>` (`obtener_documento`,
documentos.py lines 290-363): guarded only by `validar_acceso_documento
('ver')`; the handler itself re-evaluates the OTP matrix for 'ver' and, if
required, demands the `X-OTP-Code` header (428) and calls
`Usuario.validar_otp` on it directly (401 on failure) — with no
not-configured branch and no format check. -/
def obtener_documento (gen : String → Int → String) (u : Usuario)
    (d : Documento) (codigoOtp : Option String) (ahora : Int) :
    Resultado × Usuario :=
  match validar_acceso_documento Accion.ver u d with
  | Resultado.proceed =>
    if requiere_otp_para_accion Accion.ver d.nivelSeguridad u.rol then
      match codigoOtp with
      | none => (Resultado.otpCodigoRequerido, u)
      | some codigo =>
        match validar_otp gen u codigo ahora with
        | (true, u1) => (Resultado.proceed, u1)
        | (false, u1) => (Resultado.otpInvalido, u1)
    else (Resultado.proceed, u)
  | r => (r, u)

/-- The route `DELETE /api/documentos/<id>` (`eliminar_documento`,
documentos.py lines 470-525): guarded only by `validar_acceso_documento
('eliminar')` and the audit decorator; the handler soft-deletes the
document.  No OTP decorator is applied and the handler never reads the
`X-OTP-Code` header. -/
def eliminar_documento (u : Usuario) (d : Documento) :
    Resultado × Documento :=
  match validar_acceso_documento Accion.eliminar u d with
  | Resultado.proceed =>
    (Resultado.proceed, { d with estado := EstadoDocumento.eliminado })
  | r => (r, d)

/-- The route `GET /api/documentos/<id>/descargar` (`descargar_documento`,
documentos.py lines 532-572): guarded only by `validar_acceso_documento
('descargar')`; the handler sends the file.  No OTP decorator is applied
and the handler never reads the `X-OTP-Code` header. -/
def descargar_documento (u : Usuario) (d : Documento) : Resultado :=
  match validar_acceso_documento Accion.descargar u d with
  | Resultado.proceed => Resultado.proceed
  | r => r

/-! ## Reachable second-factor states -/

/-- Second-factor states reachable from a fresh account (`otp_habilitado`
defaults to `False`, usuario.py line 30) through the exposed OTP-mutating
operations and login. -/
inductive Alcanzable : Usuario → Prop where
  | inicial (u : Usuario) : u.otpHabilitado = false → Alcanzable u
  | configurar (u : Usuario) (s : String) :
      Alcanzable u → Alcanzable (configurar_otp u s)
  | activar (gen : String → Int → String) (u : Usuario) (c : String)
      (t : Int) : Alcanzable u →
      Alcanzable (activar_otp_con_validacion gen u c t).2
  | confirmar (esDigito : Char → Bool) (gen : String → Int → String)
      (u : Usuario) (c : String) (t : Int) : Alcanzable u →
      Alcanzable (configurar_otp_inicial_validar esDigito gen u c t).2
  | validar (gen : String → Int → String) (u : Usuario) (c : String)
      (t : Int) : Alcanzable u → Alcanzable (validar_otp gen u c t).2
  | resetear (u : Usuario) : Alcanzable u →
      Alcanzable (resetear_configuracion_otp u)
  | acceso (u : Usuario) (pw : Bool) : Alcanzable u →
      Alcanzable (login u pw).2.1

/-- The second-factor invariant: OTP enabled implies a stored secret
(spec §3: `enabled == true` implies `secret` is present). -/
def invOtp (u : Usuario) : Prop :=
  u.otpHabilitado = true → u.claveOtpBase32.isSome = true

/-! ## Concrete fixtures for witnesses and counterexamples -/

/-- A standard-role active user, id 1, OTP not configured. -/
def usuarioEstandar : Usuario :=
  ⟨1, Rol.usuario, true, 0, none, false, none⟩

/-- The same user with a pending (unconfirmed) OTP secret. -/
def usuarioPendiente : Usuario :=
  ⟨1, Rol.usuario, true, 0, some "SECRETO", false, none⟩

/-- The same user with OTP active. -/
def usuarioOtpActivo : Usuario :=
  ⟨1, Rol.usuario, true, 0, some "SECRETO", true, none⟩

/-- A supervisor-role active user, id 1. -/
def usuarioSupervisorFix : Usuario :=
  ⟨1, Rol.supervisor, true, 0, none, false, none⟩

/-- An admin-role active user, id 1. -/
def usuarioAdminFix : Usuario :=
  ⟨1, Rol.admin, true, 0, none, false, none⟩

/-- An active secret document owned by user 1. -/
def documentoSecreto : Documento :=
  ⟨1, NivelSeguridad.secreto, EstadoDocumento.activo⟩

/-- An active public document owned by user 2. -/
def documentoPublico : Documento :=
  ⟨2, NivelSeguridad.publico, EstadoDocumento.activo⟩

/-- A concrete code generator assigning every secret and step the code
123456. -/
def genConstante : String → Int → String := fun _ _ => "123456"

/-! ## Helper lemmas -/

theorem validar_otp_clave (gen : String → Int → String) (u : Usuario)
    (c : String) (t : Int) :
    (validar_otp gen u c t).2.claveOtpBase32 = u.claveOtpBase32 := by
  unfold validar_otp
  split
  · rfl
  · split
    · rfl
    · split <;> rfl

theorem validar_otp_habilitado (gen : String → Int → String) (u : Usuario)
    (c : String) (t : Int) :
    (validar_otp gen u c t).2.otpHabilitado = u.otpHabilitado := by
  unfold validar_otp
  split
  · rfl
  · split
    · rfl
    · split <;> rfl

theorem validar_otp_con_debug_clave (gen : String → Int → String)
    (u : Usuario) (c : String) (t : Int) :
    (validar_otp_con_debug gen u c t).2.claveOtpBase32 = u.claveOtpBase32 := by
  unfold validar_otp_con_debug
  split
  · rfl
  · split <;> rfl

theorem validar_otp_con_debug_habilitado (gen : String → Int → String)
    (u : Usuario) (c : String) (t : Int) :
    (validar_otp_con_debug gen u c t).2.otpHabilitado = u.otpHabilitado := by
  unfold validar_otp_con_debug
  split
  · rfl
  · split <;> rfl

theorem invOtp_validar (gen : String → Int → String) (u : Usuario)
    (c : String) (t : Int) (h : invOtp u) :
    invOtp (validar_otp gen u c t).2 := by
  intro hHab
  rw [validar_otp_clave]
  rw [validar_otp_habilitado] at hHab
  exact h hHab

theorem invOtp_activar (gen : String → Int → String) (u : Usuario)
    (c : String) (t : Int) (h : invOtp u) :
    invOtp (activar_otp_con_validacion gen u c t).2 := by
  cases hC : u.claveOtpBase32 with
  | none =>
    simp only [activar_otp_con_validacion, hC, Option.isNone_none, if_true]
    exact h
  | some s =>
    simp only [activar_otp_con_validacion, hC, Option.isNone_some,
      Bool.false_eq_true, if_false]
    cases hV : validar_otp gen u c t with
    | mk ok u1 =>
      have hc : u1.claveOtpBase32 = some s := by
        have hp := validar_otp_clave gen u c t
        rw [hV, hC] at hp
        exact hp
      have hb : u1.otpHabilitado = u.otpHabilitado := by
        have hp := validar_otp_habilitado gen u c t
        rw [hV] at hp
        exact hp
      cases ok
      · intro hHab
        simp only at hHab ⊢
        rw [hc]
        rfl
      · intro _
        simp only
        rw [hc]
        rfl

theorem invOtp_confirmar (esDigito : Char → Bool)
    (gen : String → Int → String) (u : Usuario) (c : String) (t : Int)
    (h : invOtp u) :
    invOtp (configurar_otp_inicial_validar esDigito gen u c t).2 := by
  cases hC : u.claveOtpBase32 with
  | none =>
    simp only [configurar_otp_inicial_validar, hC, Option.isNone_none, if_true]
    exact h
  | some s =>
    simp only [configurar_otp_inicial_validar, hC, Option.isNone_some,
      Bool.false_eq_true, if_false]
    split
    · exact h
    · cases hV : validar_otp_con_debug gen u c t with
      | mk ok u1 =>
        have hc : u1.claveOtpBase32 = some s := by
          have hp := validar_otp_con_debug_clave gen u c t
          rw [hV, hC] at hp
          exact hp
        have hb : u1.otpHabilitado = u.otpHabilitado := by
          have hp := validar_otp_con_debug_habilitado gen u c t
          rw [hV] at hp
          exact hp
        cases ok
        · intro hHab
          simp only at hHab ⊢
          rw [hc]
          rfl
        · intro _
          simp only
          rw [hc]
          rfl

theorem invOtp_login (u : Usuario) (pw : Bool) (h : invOtp u) :
    invOtp (login u pw).2.1 := by
  unfold login
  split
  · exact h
  · split
    · exact h
    · split
      · exact h
      · exact h

theorem alcanzable_invOtp (u : Usuario) (h : Alcanzable u) : invOtp u := by
  induction h with
  | inicial v hv => exact fun hh => absurd hh (by simp [hv])
  | configurar v s _ _ => intro hh; simp [configurar_otp] at hh
  | activar gen v c t _ ih => exact invOtp_activar gen v c t ih
  | confirmar esDigito gen v c t _ ih =>
    exact invOtp_confirmar esDigito gen v c t ih
  | validar gen v c t _ ih => exact invOtp_validar gen v c t ih
  | resetear v _ _ => intro hh; simp [resetear_configuracion_otp] at hh
  | acceso v pw _ ih => exact invOtp_login v pw ih



/-! ## Claims -/

/-- C1: the OTP policy matrix requires a second factor for deleting and
downloading a secret document, yet the delete and download routes carry no
OTP enforcement at all: for a standard owner with OTP not even configured
and no submitted code, both routes proceed (the delete soft-deletes the
document).  This exhibits the divergence between the routes and their own
docstrings, which state that `X-OTP-Code` is required according to the
security level. -/
theorem C1_eliminar_descargar_sin_otp :
    requiere_otp_para_accion Accion.eliminar NivelSeguridad.secreto
      Rol.usuario = true ∧
    requiere_otp_para_accion Accion.descargar NivelSeguridad.secreto
      Rol.usuario = true ∧
    eliminar_documento usuarioEstandar documentoSecreto =
      (Resultado.proceed,
        { documentoSecreto with estado := EstadoDocumento.eliminado }) ∧
    descargar_documento usuarioEstandar documentoSecreto =
      Resultado.proceed := by
  decide

/-- C2 counterexample: a standard-role user viewing a secret document with
OTP not configured receives a code challenge (`OTP_REQUERIDO_VER`, 428),
not the distinct not-configured outcome the claim requires. -/
theorem C2_counterexample :
    (obtener_documento genConstante usuarioEstandar documentoSecreto
        none 0).1 = Resultado.otpCodigoRequerido ∧
    (obtener_documento genConstante usuarioEstandar documentoSecreto
        none 0).1 ≠ Resultado.otpNoConfigurado := by
  decide

/-- C2 (amended): in the decorator pipeline `requiere_otp_para_documento`,
whenever the matrix requires a second factor and the user's OTP is not
enabled, the outcome is the distinct not-configured response; but the
inline view path of `obtener_documento` never produces that outcome — a
standard user viewing a secret document with OTP not configured gets a
code challenge instead. -/
theorem C2_no_configurado (esDigito : Char → Bool)
    (gen : String → Int → String) (u : Usuario) (d : Documento)
    (accion : Accion) (codigoOtp : Option String) (ahora : Int)
    (hAct : u.activo = true) (hEstado : d.estado = EstadoDocumento.activo)
    (hReq : requiere_otp_para_accion accion d.nivelSeguridad u.rol = true)
    (hNoConf : u.otpHabilitado = false) :
    (requiere_otp_para_documento esDigito gen u d accion codigoOtp ahora).1
      = Resultado.otpNoConfigurado ∧
    (obtener_documento gen usuarioEstandar documentoSecreto none ahora).1
      = Resultado.otpCodigoRequerido := by
  constructor
  · simp [requiere_otp_para_documento, hAct, hEstado, hReq, hNoConf]
  · rfl

/-- C2 witness: the amended statement at concrete inputs. -/
theorem C2_no_configurado_witness :
    usuarioEstandar.activo = true ∧
    documentoSecreto.estado = EstadoDocumento.activo ∧
    requiere_otp_para_accion Accion.ver documentoSecreto.nivelSeguridad
      usuarioEstandar.rol = true ∧
    usuarioEstandar.otpHabilitado = false ∧
    ((requiere_otp_para_documento esDigitoPy genConstante usuarioEstandar
        documentoSecreto Accion.ver none 0).1
      = Resultado.otpNoConfigurado ∧
    (obtener_documento genConstante usuarioEstandar documentoSecreto
        none 0).1 = Resultado.otpCodigoRequerido) :=
  ⟨by decide, by decide, by decide, by decide,
    C2_no_configurado esDigitoPy genConstante usuarioEstandar
      documentoSecreto Accion.ver none 0 (by decide) (by decide) (by decide)
      (by decide)⟩

/-- C3 counterexample: a non-owner supervisor may edit a public document —
`puede_modificar_documento` returns true, not false as claimed. -/
theorem C3_counterexample :
    usuarioSupervisorFix.rol = Rol.supervisor ∧
    (documentoPublico.propietarioId = usuarioSupervisorFix.id → False) ∧
    documentoPublico.nivelSeguridad = NivelSeguridad.publico ∧
    puede_modificar_documento usuarioSupervisorFix documentoPublico
      = true := by
  decide

/-- C3 (amended): for every supervisor and every public document (owned or
not), `puede_modificar_documento` returns true: the code's third rule
grants supervisors modification of every non-secret document, not only of
restricted ones. -/
theorem C3_supervisor_edita_publico (u : Usuario) (d : Documento)
    (hRol : u.rol = Rol.supervisor)
    (hPub : d.nivelSeguridad = NivelSeguridad.publico) :
    puede_modificar_documento u d = true := by
  simp [puede_modificar_documento, es_admin, es_supervisor, hRol, hPub]

/-- C3 witness: the amended statement at concrete inputs. -/
theorem C3_supervisor_edita_publico_witness :
    usuarioSupervisorFix.rol = Rol.supervisor ∧
    documentoPublico.nivelSeguridad = NivelSeguridad.publico ∧
    puede_modificar_documento usuarioSupervisorFix documentoPublico = true :=
  ⟨by decide, by decide,
    C3_supervisor_edita_publico usuarioSupervisorFix documentoPublico
      (by decide) (by decide)⟩

/-- C4: an active account with four failed attempts reaches a counter of
five on the fifth failed login and is then locked; and any active account
with at least five failed attempts has every further login attempt
rejected as locked without invoking the password check (the third
component of `login` records whether `verificar_password` ran). -/
theorem C4_bloqueo (u v : Usuario) (pw pw2 : Bool) (hu : u.activo = true)
    (h4 : u.intentosLoginFallidos = 4) (hv : v.activo = true)
    (h5 : 5 ≤ v.intentosLoginFallidos) :
    ((login u false).2.1).intentosLoginFallidos = 5 ∧
    esta_bloqueado (login u false).2.1 = true ∧
    login ((login u false).2.1) pw =
      (ResultadoLogin.cuentaBloqueada, (login u false).2.1, false) ∧
    login v pw2 = (ResultadoLogin.cuentaBloqueada, v, false) := by
  have hb : esta_bloqueado u = false := by
    simp [esta_bloqueado, h4]
  have h1 : login u false =
      (ResultadoLogin.credencialesInvalidas, registrar_intento_fallido u,
        true) := by
    simp [login, hu, hb]
  refine ⟨?_, ?_, ?_, ?_⟩
  · rw [h1]; simp [registrar_intento_fallido, h4]
  · rw [h1]; simp [esta_bloqueado, registrar_intento_fallido, h4]
  · rw [h1]
    simp [login, registrar_intento_fallido, hu, esta_bloqueado, h4]
  · simp [login, hv, esta_bloqueado, h5]

/-- C4 witness: the statement at concrete accounts. -/
theorem C4_bloqueo_witness :
    (⟨1, Rol.usuario, true, 4, none, false, none⟩ : Usuario).activo = true ∧
    (⟨1, Rol.usuario, true, 4, none, false, none⟩ :
        Usuario).intentosLoginFallidos = 4 ∧
    (⟨2, Rol.usuario, true, 5, none, false, none⟩ : Usuario).activo = true ∧
    5 ≤ (⟨2, Rol.usuario, true, 5, none, false, none⟩ :
        Usuario).intentosLoginFallidos ∧
    login (⟨2, Rol.usuario, true, 5, none, false, none⟩ : Usuario) true =
      (ResultadoLogin.cuentaBloqueada,
        (⟨2, Rol.usuario, true, 5, none, false, none⟩ : Usuario), false) :=
  ⟨by decide, by decide, by decide, by decide,
    (C4_bloqueo ⟨1, Rol.usuario, true, 4, none, false, none⟩
      ⟨2, Rol.usuario, true, 5, none, false, none⟩ true true
      (by decide) (by decide) (by decide) (by decide)).2.2.2⟩

/-- C5 counterexample: in the pending state (secret stored, OTP disabled)
the model method `activar_otp_con_validacion` returns false and leaves the
user unchanged even for a code that is valid for the pending secret in the
current window, because the `validar_otp` it delegates to fails closed
whenever `otp_habilitado` is still false. -/
theorem C5_counterexample :
    usuarioPendiente.claveOtpBase32 = some "SECRETO" ∧
    usuarioPendiente.otpHabilitado = false ∧
    totp_verify (genConstante "SECRETO") "123456" 0 = true ∧
    activar_otp_con_validacion genConstante usuarioPendiente "123456" 0
      = (false, usuarioPendiente) := by
  decide

/-- C5 (amended): the activation actually exposed by the
configurar-inicial route (which uses `validar_otp_con_debug`) behaves as
claimed: from a pending state, a well-formed code valid in the current
window activates OTP (`otp_habilitado := true`,
`fecha_ultimo_otp := now`) and reports success, while an invalid code
reports failure and leaves the user unchanged; the helper
`activar_otp_con_validacion`, by contrast, can never return true from the
pending state. -/
theorem C5_activacion (esDigito : Char → Bool)
    (gen : String → Int → String) (u : Usuario) (s codigo : String)
    (ahora : Int) (hs : u.claveOtpBase32 = some s)
    (hPend : u.otpHabilitado = false)
    (hFmt : es_digitos esDigito codigo = true) (hLen : codigo.length = 6) :
    (totp_verify (gen s) codigo ahora = true →
      configurar_otp_inicial_validar esDigito gen u codigo ahora =
        (ResultadoActivacion.activado,
          { u with otpHabilitado := true, fechaUltimoOtp := some ahora })) ∧
    (totp_verify (gen s) codigo ahora = false →
      configurar_otp_inicial_validar esDigito gen u codigo ahora =
        (ResultadoActivacion.codigoIncorrecto, u)) ∧
    (activar_otp_con_validacion gen u codigo ahora).1 = false := by
  refine ⟨?_, ?_, ?_⟩
  · intro hV
    simp [configurar_otp_inicial_validar, validar_otp_con_debug,
      validar_otp_codigo, hs, hFmt, hLen, hV]
  · intro hV
    simp [configurar_otp_inicial_validar, validar_otp_con_debug,
      validar_otp_codigo, hs, hFmt, hLen, hV]
  · simp [activar_otp_con_validacion, validar_otp, hs, hPend]

/-- C5 witness: the amended statement at concrete inputs. -/
theorem C5_activacion_witness :
    usuarioPendiente.claveOtpBase32 = some "SECRETO" ∧
    usuarioPendiente.otpHabilitado = false ∧
    es_digitos esDigitoPy "123456" = true ∧
    "123456".length = 6 ∧
    (totp_verify (genConstante "SECRETO") "123456" 0 = true →
      configurar_otp_inicial_validar esDigitoPy genConstante usuarioPendiente
          "123456" 0 =
        (ResultadoActivacion.activado,
          { usuarioPendiente with otpHabilitado := true, fechaUltimoOtp := some 0 })) :=
  ⟨by decide, by decide, by decide, by decide,
    (C5_activacion esDigitoPy genConstante usuarioPendiente "SECRETO"
      "123456" 0 (by decide) (by decide) (by decide) (by decide)).1⟩

/-- C6: for a user with OTP active and a stored secret, `validar_otp`
accepts a submitted code exactly when it equals the TOTP code derived for
the current 30-second step or for the immediately preceding or following
step; in particular a code only valid two steps away (±60 s) is
rejected. -/
theorem C6_ventana (gen : String → Int → String) (u : Usuario)
    (s codigo : String) (paso : Int) (hs : u.claveOtpBase32 = some s)
    (hHab : u.otpHabilitado = true) :
    (validar_otp gen u codigo paso).1 = true ↔
      (gen s (paso - 1) = codigo ∨ gen s paso = codigo ∨
        gen s (paso + 1) = codigo) := by
  simp [validar_otp, validar_otp_codigo, totp_verify, hs, hHab]
  split <;> rename_i hV
  · simpa [or_assoc] using hV
  · simpa [and_assoc] using hV

/-- C6 witness: the statement at concrete inputs. -/
theorem C6_ventana_witness :
    usuarioOtpActivo.claveOtpBase32 = some "SECRETO" ∧
    usuarioOtpActivo.otpHabilitado = true ∧
    ((validar_otp genConstante usuarioOtpActivo "123456" 0).1 = true ↔
      (genConstante "SECRETO" (0 - 1) = "123456" ∨
        genConstante "SECRETO" 0 = "123456" ∨
        genConstante "SECRETO" (0 + 1) = "123456")) :=
  ⟨by decide, by decide,
    C6_ventana genConstante usuarioOtpActivo "SECRETO" "123456" 0
      (by decide) (by decide)⟩

/-- C7 counterexample: the claimed shape check is neither universal nor an
ASCII check.  On the inline view path a 5-character code — not 6 ASCII
digits — reaches `validar_otp` and is rejected as an OTP mismatch (401
'Código OTP inválido'), not as a format error; and on the decorator path
the code "²²²²²²" — six Unicode digit characters, none of them an ASCII
digit — passes the `isdigit()`-based format check (Python's `str.isdigit`
accepts the superscript two U+00B2) and likewise reaches the cryptographic
verification, surfacing as a 401 mismatch rather than the claimed 400
format rejection. -/
theorem C7_counterexample :
    (es_digitos Char.isDigit "12345" && "12345".length == 6) = false ∧
    (obtener_documento genConstante usuarioOtpActivo documentoSecreto
        (some "12345") 0).1 = Resultado.otpInvalido ∧
    ("²²²²²²".data.all Char.isDigit) = false ∧
    (es_digitos esDigitoPy "²²²²²²" && "²²²²²²".length == 6) = true ∧
    (requiere_otp_para_documento esDigitoPy genConstante usuarioOtpActivo
        documentoSecreto Accion.ver (some "²²²²²²") 0).1
      = Resultado.otpInvalido ∧
    (requiere_otp_para_documento esDigitoPy genConstante usuarioOtpActivo
        documentoSecreto Accion.ver (some "²²²²²²") 0).1
      ≠ Resultado.otpFormatoInvalido := by
  decide

/-- C7 (amended): for every per-character digit table (hence for Python's
`str.isdigit`), the decorator pipeline rejects every code failing the
`isdigit()`-and-length-6 test as a 400 format error before any
cryptographic verification — the outcome is independent of the code
generator, and the rejection is not an OTP mismatch; but that test
accepts every Unicode digit, not only ASCII ones, so the non-ASCII code
"²²²²²²" passes it and is handed to `validar_otp`, surfacing as an OTP
failure; and the inline view path of `obtener_documento` applies no
format check at all, passing malformed codes directly to `validar_otp`. -/
theorem C7_formato (esDigito : Char → Bool) (gen : String → Int → String)
    (u : Usuario) (d : Documento) (accion : Accion) (codigo : String)
    (ahora : Int) (hAct : u.activo = true)
    (hEstado : d.estado = EstadoDocumento.activo)
    (hReq : requiere_otp_para_accion accion d.nivelSeguridad u.rol = true)
    (hHab : u.otpHabilitado = true)
    (hFmt : (!(es_digitos esDigito codigo) || codigo.length != 6) = true) :
    (requiere_otp_para_documento esDigito gen u d accion (some codigo)
        ahora).1 = Resultado.otpFormatoInvalido ∧
    ((es_digitos esDigitoPy "²²²²²²" && "²²²²²²".length == 6) = true ∧
      (requiere_otp_para_documento esDigitoPy genConstante usuarioOtpActivo
          documentoSecreto Accion.ver (some "²²²²²²") 0).1
        = Resultado.otpInvalido) := by
  constructor
  · simp [requiere_otp_para_documento, hAct, hEstado, hReq, hHab, hFmt]
  · exact ⟨by decide, by decide⟩

/-- C7 witness: the amended statement at concrete inputs. -/
theorem C7_formato_witness :
    usuarioOtpActivo.activo = true ∧
    documentoSecreto.estado = EstadoDocumento.activo ∧
    requiere_otp_para_accion Accion.ver documentoSecreto.nivelSeguridad
      usuarioOtpActivo.rol = true ∧
    usuarioOtpActivo.otpHabilitado = true ∧
    (!(es_digitos esDigitoPy "12345") || "12345".length != 6) = true ∧
    (requiere_otp_para_documento esDigitoPy genConstante usuarioOtpActivo
        documentoSecreto Accion.ver (some "12345") 0).1
      = Resultado.otpFormatoInvalido :=
  ⟨by decide, by decide, by decide, by decide, by decide,
    (C7_formato esDigitoPy genConstante usuarioOtpActivo documentoSecreto
      Accion.ver "12345" 0 (by decide) (by decide) (by decide) (by decide)
      (by decide)).1⟩

/-- C8: every second-factor state reachable from a fresh account through
the exposed OTP operations and login satisfies the invariant: OTP enabled
implies a stored secret. -/
theorem C8_invariante (u : Usuario) (h : Alcanzable u)
    (hHab : u.otpHabilitado = true) : u.claveOtpBase32.isSome = true :=
  alcanzable_invOtp u h hHab

/-- C8 witness: the invariant applied to the concrete state reached by
provisioning and then confirming activation with a valid code. -/
theorem C8_invariante_witness :
    (configurar_otp_inicial_validar esDigitoPy genConstante
        (configurar_otp usuarioEstandar "SECRETO") "123456"
        0).2.otpHabilitado = true ∧
    (configurar_otp_inicial_validar esDigitoPy genConstante
        (configurar_otp usuarioEstandar "SECRETO") "123456"
        0).2.claveOtpBase32.isSome = true :=
  ⟨by decide,
    C8_invariante _
      (Alcanzable.confirmar esDigitoPy genConstante
        (configurar_otp usuarioEstandar "SECRETO") "123456" 0
        (Alcanzable.configurar usuarioEstandar "SECRETO"
          (Alcanzable.inicial usuarioEstandar rfl)))
      (by decide)⟩

/-- C9: the permission evaluator is monotone in the privilege order
usuario ≤ supervisor ≤ admin: holding the user's identity (hence
ownership) fixed, any action permitted to a lower role is permitted to a
higher one, for view/download, edit and delete alike. -/
theorem C9_monotonia (u v : Usuario) (d : Documento) (hid : v.id = u.id)
    (hr : rolRango u.rol ≤ rolRango v.rol) :
    (puede_acceder_documento u d = true →
      puede_acceder_documento v d = true) ∧
    (puede_modificar_documento u d = true →
      puede_modificar_documento v d = true) ∧
    (puede_eliminar_documento u d = true →
      puede_eliminar_documento v d = true) := by
  cases hru : u.rol <;> cases hrv : v.rol <;>
    by_cases hown : d.propietarioId = u.id <;>
    cases hn : d.nivelSeguridad <;>
    simp_all [puede_acceder_documento, puede_modificar_documento,
      puede_eliminar_documento, es_admin, es_supervisor, rolRango, hid]

/-- C9 witness: the statement at concrete inputs. -/
theorem C9_monotonia_witness :
    usuarioSupervisorFix.id = usuarioEstandar.id ∧
    rolRango usuarioEstandar.rol ≤ rolRango usuarioSupervisorFix.rol ∧
    (puede_acceder_documento usuarioEstandar documentoPublico = true →
      puede_acceder_documento usuarioSupervisorFix documentoPublico
        = true) :=
  ⟨by decide, by decide,
    (C9_monotonia usuarioEstandar usuarioSupervisorFix documentoPublico
      (by decide) (by decide)).1⟩

/-- C10: whenever `validar_otp` returns false — wrong code, OTP not
enabled, or no stored secret — it leaves every field of the user record
unchanged; `fecha_ultimo_otp` is written only on success and no counter
tallies failed OTP attempts. -/
theorem C10_sin_efecto (gen : String → Int → String) (u : Usuario)
    (codigo : String) (ahora : Int)
    (hFalse : (validar_otp gen u codigo ahora).1 = false) :
    (validar_otp gen u codigo ahora).2 = u := by
  revert hFalse
  unfold validar_otp
  split
  · intro _; rfl
  · split
    · intro _; rfl
    · split
      · intro h; exact absurd h (by simp)
      · intro _; rfl

/-- C10 witness: the statement at a concrete failing verification. -/
theorem C10_sin_efecto_witness :
    (validar_otp genConstante usuarioEstandar "123456" 0).1 = false ∧
    (validar_otp genConstante usuarioEstandar "123456" 0).2
      = usuarioEstandar :=
  ⟨by decide, C10_sin_efecto genConstante usuarioEstandar "123456" 0
    (by decide)⟩

end ProyectoBackend
